import Mathlib

/-!
Shallow embedding of the reveal-matchmaking core of the tapitAI backend.

The embedding covers, translated from the Python source:
- the presence heartbeat upsert (`app/api/routes/presence.py`, `presence_heartbeat`),
- the nearby candidate query with the daily three-slot cycle filter
  (`app/api/routes/presence.py`, `presence_nearby`, `haversine_m`),
- the daily cycle slot allocator (`app/modules/reveal_v2/router.py`,
  `_ensure_daily_slot`; `app/services/reveal_cycle_v2.py`, `ensure_cycle_slot`),
- the pair blocklist (`_pair_low_high`, `_is_blocked` / `is_blocked_pair`,
  `_insert_block` / `upsert_block_pair`),
- the two-party reveal decision endpoint (`app/modules/reveal_v2/router.py`,
  `reveal_decision_v2`),
- the messaging-side reveal gate (`app/api/push.py`,
  `_maybe_reveal_after_two_senders`, `_local_mark_revealed`, `_local_is_revealed`).

Modelling conventions:
- Database tables are lists of row structures; SQL upserts become
  find/map/append operations with the same conflict-key semantics.
- User and conversation ids are naturals.  The source canonicalizes user
  pairs by comparing the ids as strings (`(a, b) if a < b else (b, a)`),
  i.e. it only uses that the ids carry a total order; we use the order on
  naturals.
- Timestamps are integers (seconds); `day_key` is an integer day ordinal.
  Each handler receives the current time / day as an explicit argument
  (the source reads `datetime.now()` / `NOW()`).
- Coordinates and distances are a parameter type with a linear order; the
  structural theorems hold for any distance function, and the haversine
  formula itself is transcribed over the real numbers (`haversine_m`).
  Python's float rounding of the displayed distance (`round(dist, 1)`) is
  display-only and is not modelled.
- Python's stable `list.sort(key=...)` is modelled by `List.insertionSort`
  with the corresponding key order (both are stable sorts, and only
  sortedness / permutation facts are used).
-/

namespace Tapit

/-- User identifier (source: opaque id strings; see modelling conventions). -/
abbrev UserId := Nat

/-- Conversation identifier. -/
abbrev ConvId := Nat

/-- Timestamp in seconds. -/
abbrev Time := Int

/-- Calendar day ordinal (`day_key`). -/
abbrev Day := Int

/-- `app/core/match_config.py`: `STATIONARY_THRESHOLD_SECONDS = 15`. -/
def STATIONARY_THRESHOLD_SECONDS : Int := 15

/-- `app/core/match_config.py`: `PRESENCE_EXPIRY_MINUTES = 5`. -/
def PRESENCE_EXPIRY_MINUTES : Int := 5

/-- One row of the `presence` table (one per user). -/
structure PresenceRow (α : Type) where
  user_id : UserId
  lat : α
  lng : α
  venue_type : Option String
  is_stationary : Bool
  discoverable : Bool
  activated_at : Option Time
  last_seen_at : Time
deriving Repr, DecidableEq

/-- Body of `POST /heartbeat` (`PresenceHeartbeatRequest`). -/
structure PresenceHeartbeatRequest (α : Type) where
  lat : α
  lng : α
  is_stationary : Bool
  venue_type : Option String
deriving Repr, DecidableEq

/-- The `VALUES (...)` arm of the heartbeat INSERT: a brand new presence row.
`discoverable` is inserted as TRUE, `activated_at` is `NOW()` iff the
heartbeat is stationary, `last_seen_at` is `NOW()`. -/
def heartbeatInsertRow (user_id : UserId) (p : PresenceHeartbeatRequest α)
    (now : Time) : PresenceRow α :=
  { user_id := user_id
    lat := p.lat
    lng := p.lng
    venue_type := p.venue_type
    is_stationary := p.is_stationary
    discoverable := true
    activated_at := if p.is_stationary then some now else none
    last_seen_at := now }

/-- The `ON CONFLICT(user_id) DO UPDATE SET` arm of the heartbeat upsert:
`activated_at` is set to `NOW()` on a moving-to-stationary transition,
cleared when the new heartbeat is moving, and kept unchanged otherwise;
`last_seen_at` is always `NOW()`. -/
def heartbeatUpdateRow (old : PresenceRow α) (p : PresenceHeartbeatRequest α)
    (now : Time) : PresenceRow α :=
  { old with
    lat := p.lat
    lng := p.lng
    venue_type := p.venue_type
    is_stationary := p.is_stationary
    activated_at :=
      if p.is_stationary && !old.is_stationary then some now
      else if !p.is_stationary then none
      else old.activated_at
    last_seen_at := now }

/-- `presence_heartbeat` (`app/api/routes/presence.py`): upsert into
`presence` keyed by `user_id`. -/
def presence_heartbeat (store : List (PresenceRow α)) (user_id : UserId)
    (p : PresenceHeartbeatRequest α) (now : Time) : List (PresenceRow α) :=
  if store.any (fun r => decide (r.user_id = user_id)) then
    store.map (fun r =>
      if r.user_id = user_id then heartbeatUpdateRow r p now else r)
  else
    store ++ [heartbeatInsertRow user_id p now]

/-- Row lookup by user id (`SELECT ... FROM presence WHERE user_id = ...`). -/
def findUser (store : List (PresenceRow α)) (user_id : UserId) :
    Option (PresenceRow α) :=
  store.find? (fun r => decide (r.user_id = user_id))

/-- The row the heartbeat upsert leaves for the heartbeating user, as a
function of the previously stored row (if any). -/
def heartbeatResultRow (old : Option (PresenceRow α)) (user_id : UserId)
    (p : PresenceHeartbeatRequest α) (now : Time) : PresenceRow α :=
  match old with
  | some r => heartbeatUpdateRow r p now
  | none => heartbeatInsertRow user_id p now

/-- Output row of `POST /nearby` (`NearbyUser`). -/
structure NearbyUser (α : Type) where
  user_id : UserId
  lat : α
  lng : α
  distance_meters : α
deriving Repr, DecidableEq

/-- The SQL `WHERE` clause of the nearby query over `presence`:
discoverable, not the viewer, stationary, activated sufficiently long ago,
and seen recently enough. -/
def presenceSelect (viewer : UserId) (activation_cutoff expiry_cutoff : Time)
    (store : List (PresenceRow α)) : List (PresenceRow α) :=
  store.filter (fun r =>
    r.discoverable && decide (r.user_id ≠ viewer) && r.is_stationary &&
    (r.activated_at.any fun t => decide (t ≤ activation_cutoff)) &&
    decide (expiry_cutoff ≤ r.last_seen_at))

/-- The distance-filter loop of `presence_nearby`: keep each selected row
whose distance from the viewer's position is at most the radius, as a
`NearbyUser` tuple.  The distance function is a parameter; the source
instantiates it with `haversine_m`. -/
def inRadius [LinearOrder α] (dist : α → α → α → α → α)
    (lat lng radius : α) (rows : List (PresenceRow α)) : List (NearbyUser α) :=
  rows.filterMap (fun r =>
    if dist lat lng r.lat r.lng ≤ radius then
      some { user_id := r.user_id, lat := r.lat, lng := r.lng,
             distance_meters := dist lat lng r.lat r.lng }
    else none)

/-- One row of `public.reveal_daily_cycle_v2`. -/
structure CycleRow where
  viewer_id : UserId
  day_key : Day
  slot : Nat
  target_id : UserId
  conversation_id : Option ConvId
  status : Option String
deriving Repr, DecidableEq

/-- One row of `public.reveal_blocklist_v2`. -/
structure BlockRow where
  user_low : UserId
  user_high : UserId
  reason : String
  last_conversation_id : Option ConvId
deriving Repr, DecidableEq

/-- A reveal decision value (`Literal["meet", "pass"]`). -/
inductive Decision where
  | meet
  | pass
deriving Repr, DecidableEq

/-- One row of `public.reveal_decisions_v2`. -/
structure DecisionRow where
  conversation_id : ConvId
  user_id : UserId
  other_user_id : UserId
  decision : Decision
deriving Repr, DecidableEq

/-- One row of `public.connections` (reveal state is kept on
`connections.revealed_at`, with `connections.id = conversation_id`). -/
structure ConnRow where
  id : ConvId
  requester_id : UserId
  target_id : UserId
  status : String
  revealed_at : Option Time
deriving Repr, DecidableEq

/-- The durable tables the reveal core reads and writes. -/
structure RevealState where
  cycle : List CycleRow
  blocklist : List BlockRow
  decisions : List DecisionRow
  connections : List ConnRow
deriving Repr, DecidableEq

/-- `_pair_low_high` (`app/modules/reveal_v2/router.py` and
`app/services/reveal_cycle_v2.py`): canonical unordered pair key. -/
def pair_low_high (a b : UserId) : UserId × UserId :=
  if a < b then (a, b) else (b, a)

/-- Predicate for a blocklist row holding a given canonical pair. -/
def blockKeyMatch (lh : UserId × UserId) (r : BlockRow) : Bool :=
  decide (r.user_low = lh.1) && decide (r.user_high = lh.2)

/-- `_is_blocked` (router) / `is_blocked_pair` (service): canonicalize, then
look the pair up in `public.reveal_blocklist_v2`. -/
def is_blocked (bl : List BlockRow) (a b : UserId) : Bool :=
  bl.any (blockKeyMatch (pair_low_high a b))

/-- `_insert_block` (`app/modules/reveal_v2/router.py`): upsert into the
blocklist; on conflict the `reason` and `last_conversation_id` columns are
overwritten. -/
def insert_block (bl : List BlockRow) (a b : UserId) (reason : String)
    (cid : ConvId) : List BlockRow :=
  let lh := pair_low_high a b
  if bl.any (blockKeyMatch lh) then
    bl.map (fun r =>
      if r.user_low = lh.1 ∧ r.user_high = lh.2 then
        { r with reason := reason, last_conversation_id := some cid }
      else r)
  else
    bl ++ [{ user_low := lh.1, user_high := lh.2, reason := reason,
             last_conversation_id := some cid }]

/-- `upsert_block_pair` (`app/services/reveal_cycle_v2.py`): like
`_insert_block` but `last_conversation_id` is
`coalesce(excluded.last_conversation_id, existing.last_conversation_id)`. -/
def upsert_block_pair (bl : List BlockRow) (a b : UserId) (reason : String)
    (cid : Option ConvId) : List BlockRow :=
  let lh := pair_low_high a b
  if bl.any (blockKeyMatch lh) then
    bl.map (fun r =>
      if r.user_low = lh.1 ∧ r.user_high = lh.2 then
        { r with reason := reason, last_conversation_id := cid.or r.last_conversation_id }
      else r)
  else
    bl ++ [{ user_low := lh.1, user_high := lh.2, reason := reason,
             last_conversation_id := cid }]

/-- Predicate for a cycle row keyed by (viewer, day, target). -/
def cycleKeyMatch (viewer : UserId) (day : Day) (target : UserId)
    (c : CycleRow) : Bool :=
  decide (c.viewer_id = viewer) && decide (c.day_key = day) &&
    decide (c.target_id = target)

/-- Predicate for a cycle row of a given viewer and day. -/
def cycleDayMatch (viewer : UserId) (day : Day) (c : CycleRow) : Bool :=
  decide (c.viewer_id = viewer) && decide (c.day_key = day)

/-- The slot numbers already used by a viewer on a day
(`select slot from reveal_daily_cycle_v2 where viewer_id=... and day_key=...`). -/
def usedSlots (cycle : List CycleRow) (viewer : UserId) (day : Day) : List Nat :=
  (cycle.filter (cycleDayMatch viewer day)).map (·.slot)

/-- The `for slot in (1, 2, 3): if slot not in used_slots` scan: the first
free slot number, if any. -/
def firstFreeSlot (used : List Nat) : Option Nat :=
  if 1 ∉ used then some 1
  else if 2 ∉ used then some 2
  else if 3 ∉ used then some 3
  else none

/-- `_today_cycle_targets` (`app/api/routes/presence.py`) /
`get_today_cycle_targets` (service): today's targets in ascending slot
order. -/
def today_cycle_targets (cycle : List CycleRow) (viewer : UserId) (day : Day) :
    List UserId :=
  (List.insertionSort (fun a b : CycleRow => a.slot ≤ b.slot)
    (cycle.filter (cycleDayMatch viewer day))).map (·.target_id)

/-- `_ensure_daily_slot` (`app/modules/reveal_v2/router.py`): return the
existing slot of the target for today, or insert the target at the first
free slot of 1, 2, 3; `.error ()` models the HTTP 429 raised when all three
slots are taken by other targets. -/
def ensure_daily_slot (cycle : List CycleRow) (viewer_id target_id : UserId)
    (cid : ConvId) (today : Day) : Except Unit (Nat × List CycleRow) :=
  match cycle.find? (cycleKeyMatch viewer_id today target_id) with
  | some c => .ok (c.slot, cycle)
  | none =>
    match firstFreeSlot (usedSlots cycle viewer_id today) with
    | some slot =>
      .ok (slot, cycle ++ [{ viewer_id := viewer_id, day_key := today,
                             slot := slot, target_id := target_id,
                             conversation_id := some cid, status := none }])
    | none => .error ()

/-- Result record of `ensure_cycle_slot` (`CyclePickResult`). -/
structure CyclePickResult where
  day_key : Day
  slot : Nat
  target_id : UserId
  conversation_id : Option ConvId
deriving Repr, DecidableEq

/-- `ensure_cycle_slot` (`app/services/reveal_cycle_v2.py`): as
`_ensure_daily_slot`, but the returned conversation id is the stored one if
present (else the supplied one), the inserted row carries status
`'active'`, and a full cycle raises `ValueError("daily_cycle_full")`
(modelled as `.error ()`). -/
def ensure_cycle_slot (cycle : List CycleRow) (viewer_id : UserId)
    (day_key : Day) (target_id : UserId) (conversation_id : Option ConvId) :
    Except Unit (CyclePickResult × List CycleRow) :=
  match cycle.find? (cycleKeyMatch viewer_id day_key target_id) with
  | some c =>
    .ok ({ day_key := day_key, slot := c.slot, target_id := target_id,
           conversation_id := c.conversation_id.or conversation_id }, cycle)
  | none =>
    match firstFreeSlot (usedSlots cycle viewer_id day_key) with
    | some slot =>
      .ok ({ day_key := day_key, slot := slot, target_id := target_id,
             conversation_id := conversation_id },
           cycle ++ [{ viewer_id := viewer_id, day_key := day_key,
                       slot := slot, target_id := target_id,
                       conversation_id := conversation_id,
                       status := some "active" }])
    | none => .error ()

/-- Predicate for a decision row keyed by (conversation, user). -/
def decisionKeyMatch (cid : ConvId) (uid : UserId) (r : DecisionRow) : Bool :=
  decide (r.conversation_id = cid) && decide (r.user_id = uid)

/-- The decision upsert of `reveal_decision_v2`: insert, or on conflict on
(conversation_id, user_id) update only the `decision` column. -/
def upsert_decision (ds : List DecisionRow) (cid : ConvId) (uid oid : UserId)
    (d : Decision) : List DecisionRow :=
  if ds.any (decisionKeyMatch cid uid) then
    ds.map (fun r =>
      if r.conversation_id = cid ∧ r.user_id = uid then { r with decision := d }
      else r)
  else
    ds ++ [{ conversation_id := cid, user_id := uid, other_user_id := oid,
             decision := d }]

/-- The counterpart-decision read of `reveal_decision_v2`
(`select decision ... where conversation_id = ... and user_id = ...`). -/
def get_decision (ds : List DecisionRow) (cid : ConvId) (uid : UserId) :
    Option Decision :=
  (ds.find? (decisionKeyMatch cid uid)).map (·.decision)

/-- Response of `POST /v2/reveal/decision` (`RevealDecisionOut`; the
display-only `ai_message` string is not modelled). -/
structure RevealDecisionOut where
  status : String
  slot : Nat
  day_key : Day
deriving Repr, DecidableEq

/-- The error responses of `reveal_decision_v2`: HTTP 400 on a
self-decision, HTTP 429 on a full daily cycle. -/
inductive ApiError where
  | badRequest
  | cycleFull
deriving Repr, DecidableEq

/-- `reveal_decision_v2` (`app/modules/reveal_v2/router.py`): the two-party
decision endpoint.  Steps, in source order: reject self-decision; if the
pair is already blocked return `search_next` with placeholder slot 1 and
today's day key, touching nothing; ensure today's cycle slot; upsert the
caller's decision; read the counterpart's decision; then resolve: a `pass`
blocks the pair and returns `search_next`; a `meet` returns `waiting`
(counterpart undecided), or blocks and returns `search_next` (counterpart
passed), or returns status `meeting` (both chose meet). -/
def reveal_decision_v2 (s : RevealState) (user_id : UserId)
    (conversation_id : ConvId) (other_user_id : UserId) (decision : Decision)
    (today : Day) : Except ApiError (RevealDecisionOut × RevealState) :=
  if other_user_id = user_id then .error .badRequest
  else if is_blocked s.blocklist user_id other_user_id then
    .ok ({ status := "search_next", slot := 1, day_key := today }, s)
  else
    match ensure_daily_slot s.cycle user_id other_user_id conversation_id today with
    | .error _ => .error .cycleFull
    | .ok (slot, cycle') =>
      let ds := upsert_decision s.decisions conversation_id user_id
        other_user_id decision
      let s1 : RevealState := { s with cycle := cycle', decisions := ds }
      let other := get_decision ds conversation_id other_user_id
      match decision with
      | .pass =>
        .ok ({ status := "search_next", slot := slot, day_key := today },
             { s1 with blocklist :=
                 (insert_block s1.blocklist user_id other_user_id "passed"
                   conversation_id) })
      | .meet =>
        match other with
        | none =>
          .ok ({ status := "waiting", slot := slot, day_key := today }, s1)
        | some .pass =>
          .ok ({ status := "search_next", slot := slot, day_key := today },
               { s1 with blocklist :=
                   (insert_block s1.blocklist user_id other_user_id "passed"
                     conversation_id) })
        | some .meet =>
          .ok ({ status := "meeting", slot := slot, day_key := today }, s1)

/-- Sort key of the cycle-order sorts in `presence_nearby`:
`todays_targets.index(u.user_id) if u.user_id in todays_set else 999`. -/
def slotSortKey (targets : List UserId) (u : NearbyUser α) : Nat :=
  if u.user_id ∈ targets then targets.indexOf u.user_id else 999

/-- `out.sort(key=...)` on cycle order (a stable sort in the source). -/
def sortByCycleOrder (targets : List UserId) (l : List (NearbyUser α)) :
    List (NearbyUser α) :=
  List.insertionSort
    (fun a b => slotSortKey targets a ≤ slotSortKey targets b) l

/-- `fresh_candidates.sort(key=lambda u: u.distance_meters)`. -/
def sortByDistance [LinearOrder α] (l : List (NearbyUser α)) :
    List (NearbyUser α) :=
  List.insertionSort (fun a b => a.distance_meters ≤ b.distance_meters) l

/-- `presence_nearby` (`app/api/routes/presence.py`): select present,
activated, in-radius candidates; if the viewer already has three cycle
targets today, return only those still in radius in slot order; otherwise
return today's slotted targets first (slot order) and then the nearest
fresh, non-blocklisted candidates up to three users total.  The handler
issues only SELECT statements, so the reveal state is returned unchanged. -/
def presence_nearby [LinearOrder α] (dist : α → α → α → α → α)
    (presence : List (PresenceRow α)) (s : RevealState) (user_id : UserId)
    (lat lng radius_meters : α) (now : Time) (day : Day) :
    List (NearbyUser α) × RevealState :=
  let expiry_cutoff := now - PRESENCE_EXPIRY_MINUTES * 60
  let activation_cutoff := now - STATIONARY_THRESHOLD_SECONDS
  let todays_targets := today_cycle_targets s.cycle user_id day
  let rows := presenceSelect user_id activation_cutoff expiry_cutoff presence
  let in_radius := inRadius dist lat lng radius_meters rows
  if 3 ≤ todays_targets.length then
    let out := in_radius.filter (fun u => decide (u.user_id ∈ todays_targets))
    (sortByCycleOrder todays_targets out, s)
  else
    let already_out :=
      in_radius.filter (fun u => decide (u.user_id ∈ todays_targets))
    let fresh_candidates := in_radius.filter (fun u =>
      !decide (u.user_id ∈ todays_targets) &&
      !is_blocked s.blocklist user_id u.user_id)
    let remaining := 3 - already_out.length
    (sortByCycleOrder todays_targets already_out ++
      (sortByDistance fresh_candidates).take remaining, s)

/-- Two-argument arctangent (`math.atan2`), over the reals (signed zeros and
NaNs of the float version have no counterpart here). -/
noncomputable def atan2 (y x : ℝ) : ℝ :=
  if 0 < x then Real.arctan (y / x)
  else if x < 0 then
    (if 0 ≤ y then Real.arctan (y / x) + Real.pi
     else Real.arctan (y / x) - Real.pi)
  else
    (if 0 < y then Real.pi / 2
     else if y < 0 then -(Real.pi / 2)
     else 0)

/-- `math.radians`. -/
noncomputable def radians (d : ℝ) : ℝ := d * Real.pi / 180

/-- `haversine_m` (`app/api/routes/presence.py`): great-circle distance on a
sphere of radius 6,371,000 m, transcribed over the reals. -/
noncomputable def haversine_m (lat1 lng1 lat2 lng2 : ℝ) : ℝ :=
  let R : ℝ := 6371000
  let phi1 := radians lat1
  let phi2 := radians lat2
  let dphi := radians (lat2 - lat1)
  let dlambda := radians (lng2 - lng1)
  let a := Real.sin (dphi / 2) ^ 2 +
    Real.cos phi1 * Real.cos phi2 * Real.sin (dlambda / 2) ^ 2
  2 * R * atan2 (Real.sqrt a) (Real.sqrt (1 - a))

/-- `_local_mark_revealed` (`app/api/push.py`): upsert into
`public.connections` keyed by `id = conversation_id`; on conflict
`revealed_at = coalesce(existing.revealed_at, now())` — an already-set
reveal timestamp is preserved — and `status` is overwritten with
`'accepted'`. -/
def local_mark_revealed (conns : List ConnRow) (conversation_id : ConvId)
    (requester_id target_id : UserId) (now : Time) : List ConnRow :=
  if conns.any (fun c => decide (c.id = conversation_id)) then
    conns.map (fun c =>
      if c.id = conversation_id then
        { c with revealed_at := some (c.revealed_at.getD now),
                 status := "accepted" }
      else c)
  else
    conns ++ [{ id := conversation_id, requester_id := requester_id,
                target_id := target_id, status := "accepted",
                revealed_at := some now }]

/-- `_local_is_revealed` (`app/api/push.py`). -/
def local_is_revealed (conns : List ConnRow) (conversation_id : ConvId) : Bool :=
  match conns.find? (fun c => decide (c.id = conversation_id)) with
  | none => false
  | some c => c.revealed_at.isSome

/-- `_maybe_reveal_after_two_senders` (`app/api/push.py`): if already
revealed, report true; if the conversation has fewer than two distinct
message senders (read from the external message store, here a parameter),
or fewer than two participants, do nothing; otherwise mark revealed using
the first two participants.  The two-second settle delay before the commit
has no observable effect on the stored state and is not modelled. -/
def maybe_reveal_after_two_senders (conns : List ConnRow)
    (conversation_id : ConvId) (distinct_senders : List UserId)
    (participants : List UserId) (now : Time) : Bool × List ConnRow :=
  if local_is_revealed conns conversation_id then (true, conns)
  else if distinct_senders.length < 2 then (false, conns)
  else
    match participants with
    | p0 :: p1 :: _ =>
      (true, local_mark_revealed conns conversation_id p0 p1 now)
    | _ => (false, conns)

/-! ### Concrete fixtures for witnesses and counterexamples -/

/-- A blocklist row for the canonical pair (1, 2). -/
def exBlock12 : BlockRow :=
  { user_low := 1, user_high := 2, reason := "passed",
    last_conversation_id := some 5 }

/-- A state in which the pair (1, 2) is already blocked. -/
def exBlockedState : RevealState :=
  { cycle := [], blocklist := [exBlock12], decisions := [], connections := [] }

/-- A cycle row putting target 2 at slot 2 of viewer 1's day-3 cycle. -/
def exCycleRow2 : CycleRow :=
  { viewer_id := 1, day_key := 3, slot := 2, target_id := 2,
    conversation_id := some 5, status := none }

/-- Blocked pair (1, 2) with target 2 stored at slot 2. -/
def exBlockedSlot2State : RevealState :=
  { cycle := [exCycleRow2], blocklist := [exBlock12], decisions := [],
    connections := [] }

/-- The empty reveal state. -/
def exEmptyState : RevealState :=
  { cycle := [], blocklist := [], decisions := [], connections := [] }

/-- A state in which user 2 has already recorded `meet` for conversation 10
with user 1, who has not yet decided. -/
def exMeetState : RevealState :=
  { cycle := [], blocklist := [],
    decisions := [{ conversation_id := 10, user_id := 2, other_user_id := 1,
                    decision := .meet }],
    connections := [] }

/-- The state `reveal_decision_v2 exMeetState 1 10 2 meet 0` produces: user
1's slot and decision rows are added; nothing else changes. -/
def exMeetStateAfter : RevealState :=
  { cycle := [{ viewer_id := 1, day_key := 0, slot := 1, target_id := 2,
                conversation_id := some 10, status := none }],
    blocklist := [],
    decisions := [{ conversation_id := 10, user_id := 2, other_user_id := 1,
                    decision := .meet },
                  { conversation_id := 10, user_id := 1, other_user_id := 2,
                    decision := .meet }],
    connections := [] }

/-- A stationary, discoverable presence row at the origin, activated at
time 0 and last seen at time 1000. -/
def exPresence (u : UserId) : PresenceRow Int :=
  { user_id := u, lat := 0, lng := 0, venue_type := none,
    is_stationary := true, discoverable := true, activated_at := some 0,
    last_seen_at := 1000 }

/-- A degenerate distance function placing everyone at distance 0. -/
def exZeroDist : Int → Int → Int → Int → Int := fun _ _ _ _ => 0

/-- Viewer 1 already holds three day-0 cycle slots (targets 3, 4, 5). -/
def exC2State : RevealState :=
  { cycle := [{ viewer_id := 1, day_key := 0, slot := 1, target_id := 3,
                conversation_id := none, status := none },
              { viewer_id := 1, day_key := 0, slot := 2, target_id := 4,
                conversation_id := none, status := none },
              { viewer_id := 1, day_key := 0, slot := 3, target_id := 5,
                conversation_id := none, status := none }],
    blocklist := [], decisions := [], connections := [] }

/-- Viewer 1 holds two day-0 cycle slots (targets 8 and 9), neither of
which has a presence row. -/
def exC3State : RevealState :=
  { cycle := [{ viewer_id := 1, day_key := 0, slot := 1, target_id := 8,
                conversation_id := none, status := none },
              { viewer_id := 1, day_key := 0, slot := 2, target_id := 9,
                conversation_id := none, status := none }],
    blocklist := [], decisions := [], connections := [] }

/-! ### Helper lemmas -/

@[simp]
theorem heartbeatUpdateRow_user_id (r : PresenceRow α)
    (p : PresenceHeartbeatRequest α) (now : Time) :
    (heartbeatUpdateRow r p now).user_id = r.user_id := rfl

@[simp]
theorem heartbeatInsertRow_user_id (uid : UserId)
    (p : PresenceHeartbeatRequest α) (now : Time) :
    (heartbeatInsertRow uid p now).user_id = uid := rfl

/-- The heartbeat upsert leaves exactly the expected row for the
heartbeating user: the updated row if one existed, else the inserted one. -/
theorem findUser_presence_heartbeat (store : List (PresenceRow α))
    (uid : UserId) (p : PresenceHeartbeatRequest α) (now : Time) :
    findUser (presence_heartbeat store uid p now) uid =
      some (heartbeatResultRow (findUser store uid) uid p now) := by
  induction store with
  | nil =>
    simp [presence_heartbeat, findUser, heartbeatResultRow, List.find?]
  | cons r rest ih =>
    by_cases h : r.user_id = uid
    · simp [presence_heartbeat, findUser, heartbeatResultRow, List.any_cons,
        h, List.find?_cons]
    · have hmap :
          presence_heartbeat (r :: rest) uid p now =
            r :: presence_heartbeat rest uid p now := by
        by_cases hany : rest.any (fun r => decide (r.user_id = uid)) = true <;>
          simp [presence_heartbeat, List.any_cons, h, hany]
      rw [hmap, findUser, List.find?_cons]
      simp only [h, decide_eq_true_eq, if_neg]
      have hskip : findUser (r :: rest) uid = findUser rest uid := by
        simp [findUser, List.find?_cons, h]
      rw [hskip] at *
      simpa [findUser] using ih

/-! ### C5: heartbeat activation invariant -/

/-- C5: after any heartbeat the user's presence record satisfies:
`activated_at` is non-null only while `is_stationary` is true; a heartbeat
that transitions the record from moving to stationary sets `activated_at`
to the current time; one that transitions it from stationary to moving
clears it; a stationary heartbeat on an already-stationary record leaves it
unchanged; and `last_seen_at` is set to the current time on every
heartbeat. -/
theorem heartbeat_activated_at_invariant (store : List (PresenceRow α))
    (uid : UserId) (p : PresenceHeartbeatRequest α) (now : Time) :
    ∃ r', findUser (presence_heartbeat store uid p now) uid = some r' ∧
      r'.last_seen_at = now ∧
      r'.is_stationary = p.is_stationary ∧
      (r'.activated_at.isSome → r'.is_stationary = true) ∧
      (∀ r0, findUser store uid = some r0 →
        (r0.is_stationary = false → p.is_stationary = true →
          r'.activated_at = some now) ∧
        (r0.is_stationary = true → p.is_stationary = false →
          r'.activated_at = none) ∧
        (r0.is_stationary = true → p.is_stationary = true →
          r'.activated_at = r0.activated_at)) := by
  refine ⟨heartbeatResultRow (findUser store uid) uid p now,
    findUser_presence_heartbeat store uid p now, ?_, ?_, ?_, ?_⟩
  · cases h : findUser store uid <;>
      simp [heartbeatResultRow, heartbeatInsertRow, heartbeatUpdateRow]
  · cases h : findUser store uid <;>
      simp [heartbeatResultRow, heartbeatInsertRow, heartbeatUpdateRow]
  · cases h : findUser store uid with
    | none =>
      cases hp : p.is_stationary <;>
        simp [heartbeatResultRow, heartbeatInsertRow, hp]
    | some r0 =>
      cases hp : p.is_stationary <;> cases h0 : r0.is_stationary <;>
        simp [heartbeatResultRow, heartbeatUpdateRow, hp, h0]
  · intro r0 h0
    rw [h0]
    refine ⟨?_, ?_, ?_⟩ <;> intro ha hb <;>
      simp [heartbeatResultRow, heartbeatUpdateRow, ha, hb]

/-- Witness for C5: a stationary heartbeat at time 50 on a record that has
been stationary since time 7 keeps `activated_at = some 7`. -/
theorem heartbeat_activated_at_invariant_witness :
    ∃ r', findUser (presence_heartbeat
        [{ user_id := 4, lat := (0 : Int), lng := 0, venue_type := none,
           is_stationary := true, discoverable := true,
           activated_at := some 7, last_seen_at := 20 }] 4
        { lat := 1, lng := 1, is_stationary := true, venue_type := none } 50)
        4 = some r' ∧
      r'.last_seen_at = 50 ∧
      r'.is_stationary = true ∧
      (r'.activated_at.isSome → r'.is_stationary = true) ∧
      (∀ r0, findUser
          [{ user_id := 4, lat := (0 : Int), lng := 0, venue_type := none,
             is_stationary := true, discoverable := true,
             activated_at := some 7, last_seen_at := 20 }] 4 = some r0 →
        (r0.is_stationary = false → true = true →
          r'.activated_at = some 50) ∧
        (r0.is_stationary = true → true = false →
          r'.activated_at = none) ∧
        (r0.is_stationary = true → true = true →
          r'.activated_at = r0.activated_at)) := by
  simpa using heartbeat_activated_at_invariant
    [{ user_id := 4, lat := (0 : Int), lng := 0, venue_type := none,
       is_stationary := true, discoverable := true,
       activated_at := some 7, last_seen_at := 20 }] 4
    { lat := 1, lng := 1, is_stationary := true, venue_type := none } 50

/-! ### Blocklist lemmas and C7 -/

theorem pair_low_high_comm (a b : UserId) :
    pair_low_high b a = pair_low_high a b := by
  unfold pair_low_high
  rcases lt_trichotomy a b with h | h | h
  · rw [if_neg (lt_asymm h), if_pos h]
  · subst h
    rfl
  · rw [if_pos h, if_neg (lt_asymm h)]

/-- `_insert_block` always leaves a row for the canonical pair, so any
lookup whose canonicalization agrees reports the pair as blocked. -/
theorem is_blocked_insert_block_of_key (bl : List BlockRow) (a b x y : UserId)
    (reason : String) (cid : ConvId)
    (h : pair_low_high x y = pair_low_high a b) :
    is_blocked (insert_block bl a b reason cid) x y = true := by
  unfold is_blocked insert_block
  rw [h]
  by_cases hany : bl.any (blockKeyMatch (pair_low_high a b)) = true
  · rw [if_pos hany]
    obtain ⟨r, hr, hkey⟩ := List.any_eq_true.mp hany
    apply List.any_eq_true.mpr
    refine ⟨_, List.mem_map_of_mem _ hr, ?_⟩
    show blockKeyMatch (pair_low_high a b)
      (if r.user_low = (pair_low_high a b).1 ∧
          r.user_high = (pair_low_high a b).2 then
        { r with reason := reason, last_conversation_id := some cid }
      else r) = true
    by_cases hc : r.user_low = (pair_low_high a b).1 ∧
        r.user_high = (pair_low_high a b).2
    · rw [if_pos hc]
      simp only [blockKeyMatch, Bool.and_eq_true, decide_eq_true_eq]
      exact hc
    · rw [if_neg hc]
      exact hkey
  · rw [if_neg hany]
    simp [List.any_append, blockKeyMatch]

/-- C7: blocklist lookups are pair-order-independent.  After
`block(a, b, reason, conversation_id)` (the source's `_insert_block`),
`is_blocked(b, a)` returns true, and — provided the store respected the
unique constraint on `(user_low, user_high)` beforehand — exactly one entry
exists for the unordered pair. -/
theorem block_then_is_blocked_swapped (bl : List BlockRow) (a b : UserId)
    (reason : String) (cid : ConvId) (hne : a ≠ b)
    (hwf : bl.countP (blockKeyMatch (pair_low_high a b)) ≤ 1) :
    is_blocked (insert_block bl a b reason cid) b a = true ∧
    (insert_block bl a b reason cid).countP
      (blockKeyMatch (pair_low_high a b)) = 1 := by
  constructor
  · exact is_blocked_insert_block_of_key bl a b b a reason cid
      (pair_low_high_comm a b)
  · unfold insert_block
    by_cases hany : bl.any (blockKeyMatch (pair_low_high a b)) = true
    · rw [if_pos hany]
      rw [List.countP_map]
      have hfun : ∀ r : BlockRow,
          blockKeyMatch (pair_low_high a b)
            (if r.user_low = (pair_low_high a b).1 ∧
                r.user_high = (pair_low_high a b).2 then
              { r with reason := reason, last_conversation_id := some cid }
            else r) =
          blockKeyMatch (pair_low_high a b) r := by
        intro r
        by_cases hc : r.user_low = (pair_low_high a b).1 ∧
            r.user_high = (pair_low_high a b).2
        · rw [if_pos hc]
          simp only [blockKeyMatch, hc.1, hc.2]
        · rw [if_neg hc]
      have hcomp : (blockKeyMatch (pair_low_high a b) ∘ fun r =>
          if r.user_low = (pair_low_high a b).1 ∧
              r.user_high = (pair_low_high a b).2 then
            { r with reason := reason, last_conversation_id := some cid }
          else r) = blockKeyMatch (pair_low_high a b) :=
        funext fun r => hfun r
      rw [hcomp]
      obtain ⟨r, hr, hkey⟩ := List.any_eq_true.mp hany
      have hpos : 0 < bl.countP (blockKeyMatch (pair_low_high a b)) :=
        List.countP_pos_iff.mpr ⟨r, hr, hkey⟩
      omega
    · rw [if_neg hany]
      rw [List.countP_append]
      have h0 : bl.countP (blockKeyMatch (pair_low_high a b)) = 0 := by
        rw [List.countP_eq_zero]
        intro r hr hkey
        exact hany (List.any_eq_true.mpr ⟨r, hr, hkey⟩)
      rw [h0]
      simp [blockKeyMatch]

/-- Witness for C7 at a concrete pair: blocking (2, 1) makes the swapped
lookup (1, 2) report blocked, with exactly one stored row. -/
theorem block_then_is_blocked_swapped_witness :
    is_blocked (insert_block [] 2 1 "passed" 9) 1 2 = true ∧
    (insert_block [] 2 1 "passed" 9).countP
      (blockKeyMatch (pair_low_high 2 1)) = 1 :=
  block_then_is_blocked_swapped [] 2 1 "passed" 9 (by decide) (by decide)

/-! ### C4 and C10: the already-blocked short circuit -/

/-- C4: when the pair is already blocklisted, the decision endpoint returns
`search_next` and leaves the entire state unchanged: no decision row is
inserted or updated and no cycle-slot row is created. -/
theorem decision_blocked_short_circuit (s : RevealState) (user_id : UserId)
    (conversation_id : ConvId) (other_user_id : UserId) (decision : Decision)
    (today : Day) (hne : other_user_id ≠ user_id)
    (hb : is_blocked s.blocklist user_id other_user_id = true) :
    reveal_decision_v2 s user_id conversation_id other_user_id decision today =
      .ok ({ status := "search_next", slot := 1, day_key := today }, s) := by
  simp [reveal_decision_v2, hne, hb]

/-- Witness for C4: concrete blocked pair (1, 2); the call is a no-op. -/
theorem decision_blocked_short_circuit_witness :
    reveal_decision_v2 exBlockedState 1 5 2 .meet 3 =
      .ok ({ status := "search_next", slot := 1, day_key := 3 },
        exBlockedState) :=
  decision_blocked_short_circuit exBlockedState 1 5 2 .meet 3 (by decide)
    (by decide)

/-- C10: the short-circuit response for an already-blocked pair always
reports slot 1 and the supplied current day, even when the target actually
occupies a different slot in the caller's daily cycle — the reported slot
is a fixed placeholder, not the stored slot number. -/
theorem decision_blocked_placeholder_slot (s : RevealState) (user_id : UserId)
    (conversation_id : ConvId) (other_user_id : UserId) (decision : Decision)
    (today : Day) (c : CycleRow) (hne : other_user_id ≠ user_id)
    (hb : is_blocked s.blocklist user_id other_user_id = true)
    (hc : c ∈ s.cycle) (hv : c.viewer_id = user_id) (hd : c.day_key = today)
    (ht : c.target_id = other_user_id) :
    ∃ out s',
      reveal_decision_v2 s user_id conversation_id other_user_id decision
        today = .ok (out, s') ∧
      out.slot = 1 ∧ out.day_key = today := by
  refine ⟨{ status := "search_next", slot := 1, day_key := today }, s,
    ?_, rfl, rfl⟩
  simp [reveal_decision_v2, hne, hb]

/-- Witness for C10: the target holds slot 2 in the caller's cycle, yet the
short-circuit response reports slot 1. -/
theorem decision_blocked_placeholder_slot_witness :
    ∃ out s',
      reveal_decision_v2 exBlockedSlot2State 1 5 2 .meet 3 =
        .ok (out, s') ∧
      out.slot = 1 ∧ out.day_key = 3 :=
  decision_blocked_placeholder_slot exBlockedSlot2State 1 5 2 .meet 3
    exCycleRow2 (by decide) (by decide) (by decide) rfl rfl rfl

/-! ### C6: the slot allocator -/

/-- The `for slot in (1, 2, 3)` scan returns the lowest unused slot. -/
theorem firstFreeSlot_spec (used : List Nat) (k : Nat)
    (h : firstFreeSlot used = some k) :
    1 ≤ k ∧ k ≤ 3 ∧ k ∉ used ∧ ∀ j, 1 ≤ j → j < k → j ∈ used := by
  by_cases h1 : (1 : Nat) ∈ used
  · by_cases h2 : (2 : Nat) ∈ used
    · by_cases h3 : (3 : Nat) ∈ used
      · simp [firstFreeSlot, h1, h2, h3] at h
      · simp [firstFreeSlot, h1, h2, h3] at h
        subst h
        refine ⟨by omega, by omega, h3, ?_⟩
        intro j hj1 hj2
        have : j = 1 ∨ j = 2 := by omega
        rcases this with rfl | rfl
        · exact h1
        · exact h2
    · simp [firstFreeSlot, h1, h2] at h
      subst h
      refine ⟨by omega, by omega, h2, ?_⟩
      intro j hj1 hj2
      have : j = 1 := by omega
      subst this
      exact h1
  · simp [firstFreeSlot, h1] at h
    subst h
    refine ⟨by omega, by omega, h1, ?_⟩
    intro j hj1 hj2
    omega

/-- A freshly inserted cycle row matches its own (viewer, day, target) key. -/
theorem cycleKeyMatch_insert (viewer : UserId) (day : Day) (target : UserId)
    (cid : Option ConvId) (slot : Nat) (st : Option String) :
    cycleKeyMatch viewer day target
      { viewer_id := viewer, day_key := day, slot := slot,
        target_id := target, conversation_id := cid, status := st } = true := by
  simp [cycleKeyMatch]

/-- C6: `ensure_cycle_slot` is idempotent — a second call with the same
(viewer, day, target) returns the same result and leaves the store
unchanged — and a fresh assignment always takes the lowest slot number of
{1, 2, 3} not yet used by the viewer on that day. -/
theorem ensure_cycle_slot_idempotent_lowest_free :
    (∀ (cycle : List CycleRow) (viewer : UserId) (day : Day)
        (target : UserId) (cid : Option ConvId) (r : CyclePickResult)
        (cycle' : List CycleRow),
      ensure_cycle_slot cycle viewer day target cid = .ok (r, cycle') →
      ensure_cycle_slot cycle' viewer day target cid = .ok (r, cycle')) ∧
    (∀ (cycle : List CycleRow) (viewer : UserId) (day : Day)
        (target : UserId) (cid : Option ConvId) (r : CyclePickResult)
        (cycle' : List CycleRow),
      cycle.find? (cycleKeyMatch viewer day target) = none →
      ensure_cycle_slot cycle viewer day target cid = .ok (r, cycle') →
      1 ≤ r.slot ∧ r.slot ≤ 3 ∧ r.slot ∉ usedSlots cycle viewer day ∧
        ∀ j, 1 ≤ j → j < r.slot → j ∈ usedSlots cycle viewer day) := by
  constructor
  · intro cycle viewer day target cid r cycle' h
    cases hf : cycle.find? (cycleKeyMatch viewer day target) with
    | some c =>
      rw [ensure_cycle_slot, hf] at h
      obtain ⟨hr, hcy⟩ := by
        simpa using h
      subst hcy
      rw [ensure_cycle_slot, hf]
      simp [hr]
    | none =>
      rw [ensure_cycle_slot, hf] at h
      cases hslot : firstFreeSlot (usedSlots cycle viewer day) with
      | none =>
        rw [hslot] at h
        simp at h
      | some k =>
        rw [hslot] at h
        obtain ⟨hr, hcy⟩ := by
          simpa using h
        subst hcy
        rw [ensure_cycle_slot, List.find?_append, hf]
        simp only [Option.none_or, List.find?_cons,
          cycleKeyMatch_insert, List.find?_nil]
        simp [← hr, Option.or_self]
  · intro cycle viewer day target cid r cycle' hf h
    rw [ensure_cycle_slot, hf] at h
    cases hslot : firstFreeSlot (usedSlots cycle viewer day) with
    | none =>
      rw [hslot] at h
      simp at h
    | some k =>
      rw [hslot] at h
      obtain ⟨hr, hcy⟩ := by
        simpa using h
      have hk := firstFreeSlot_spec _ _ hslot
      have hrs : r.slot = k := by
        rw [← hr]
      rw [hrs]
      exact hk

/-- Witness for C6: a first call assigns slot 1 for target 2 on an empty
cycle; replaying it returns the same slot and adds no second row. -/
theorem ensure_cycle_slot_idempotent_lowest_free_witness :
    ensure_cycle_slot
      [{ viewer_id := 1, day_key := 0, slot := 1, target_id := 2,
         conversation_id := none, status := some "active" }] 1 0 2 none =
      .ok ({ day_key := 0, slot := 1, target_id := 2,
             conversation_id := none },
        [{ viewer_id := 1, day_key := 0, slot := 1, target_id := 2,
           conversation_id := none, status := some "active" }]) :=
  ensure_cycle_slot_idempotent_lowest_free.1 [] 1 0 2 none
    { day_key := 0, slot := 1, target_id := 2, conversation_id := none }
    [{ viewer_id := 1, day_key := 0, slot := 1, target_id := 2,
       conversation_id := none, status := some "active" }] (by rfl)

/-! ### C1: the decision outcome table -/

/-- Upserting one participant's decision does not affect the read of the
other participant's decision for the same conversation. -/
theorem get_decision_upsert_ne (ds : List DecisionRow) (cid : ConvId)
    (uid oid : UserId) (d : Decision) (hne : uid ≠ oid) :
    get_decision (upsert_decision ds cid uid oid d) cid oid =
      get_decision ds cid oid := by
  unfold upsert_decision get_decision
  by_cases hany : ds.any (decisionKeyMatch cid uid) = true
  · rw [if_pos hany, List.find?_map]
    have hcomp : (decisionKeyMatch cid oid ∘ fun r =>
        if r.conversation_id = cid ∧ r.user_id = uid then
          { r with decision := d }
        else r) = decisionKeyMatch cid oid := by
      funext r
      simp only [Function.comp_apply]
      by_cases hc : r.conversation_id = cid ∧ r.user_id = uid
      · rw [if_pos hc]
        simp [decisionKeyMatch]
      · rw [if_neg hc]
    rw [hcomp]
    cases hfind : ds.find? (decisionKeyMatch cid oid) with
    | none => simp
    | some r =>
      have hp := List.find?_some hfind
      have huid : r.user_id = oid := by
        simp only [decisionKeyMatch, Bool.and_eq_true, decide_eq_true_eq]
          at hp
        exact hp.2
      have hnc : ¬(r.conversation_id = cid ∧ r.user_id = uid) := by
        rintro ⟨-, h2⟩
        exact hne ((h2.symm.trans huid))
      simp [hnc]
  · rw [if_neg hany, List.find?_append]
    have hlast : List.find? (decisionKeyMatch cid oid)
        [{ conversation_id := cid, user_id := uid, other_user_id := oid,
           decision := d }] = none := by
      simpa [decisionKeyMatch] using hne
    rw [hlast]
    simp

/-- C1 (amended): on a distinct, unblocked pair whose slot resolution
succeeds, the decision endpoint resolves per the outcome table: `pass`
returns `search_next` and blocks the pair; `meet` with no counterpart
decision returns `waiting` without touching the blocklist or the reveal
state; `meet` against a recorded `pass` returns `search_next` and blocks
the pair; `meet` against a recorded `meet` returns the terminal matched
outcome — reported with status string `meeting` — and performs no
reveal-eligibility marking (the `connections` reveal state is untouched;
reveal eligibility is governed by the separate messaging-side gate). -/
theorem decision_outcome_table (s : RevealState) (user_id : UserId)
    (conversation_id : ConvId) (other_user_id : UserId) (today : Day)
    (slot : Nat) (cycle' : List CycleRow)
    (hne : other_user_id ≠ user_id)
    (hnb : is_blocked s.blocklist user_id other_user_id = false)
    (hslot : ensure_daily_slot s.cycle user_id other_user_id conversation_id
      today = .ok (slot, cycle')) :
    (∃ s', reveal_decision_v2 s user_id conversation_id other_user_id .pass
        today =
        .ok ({ status := "search_next", slot := slot, day_key := today },
          s') ∧
      is_blocked s'.blocklist user_id other_user_id = true ∧
      is_blocked s'.blocklist other_user_id user_id = true ∧
      s'.connections = s.connections) ∧
    (get_decision s.decisions conversation_id other_user_id = none →
      ∃ s', reveal_decision_v2 s user_id conversation_id other_user_id .meet
          today =
          .ok ({ status := "waiting", slot := slot, day_key := today },
            s') ∧
        s'.blocklist = s.blocklist ∧ s'.connections = s.connections) ∧
    (get_decision s.decisions conversation_id other_user_id = some .pass →
      ∃ s', reveal_decision_v2 s user_id conversation_id other_user_id .meet
          today =
          .ok ({ status := "search_next", slot := slot, day_key := today },
            s') ∧
        is_blocked s'.blocklist user_id other_user_id = true ∧
        is_blocked s'.blocklist other_user_id user_id = true ∧
        s'.connections = s.connections) ∧
    (get_decision s.decisions conversation_id other_user_id = some .meet →
      ∃ s', reveal_decision_v2 s user_id conversation_id other_user_id .meet
          today =
          .ok ({ status := "meeting", slot := slot, day_key := today },
            s') ∧
        s'.blocklist = s.blocklist ∧ s'.connections = s.connections) := by
  have hne' : user_id ≠ other_user_id := fun h => hne h.symm
  have hnb' : ¬(is_blocked s.blocklist user_id other_user_id = true) := by
    simp [hnb]
  refine ⟨?_, ?_, ?_, ?_⟩
  · refine ⟨⟨cycle',
      insert_block s.blocklist user_id other_user_id "passed" conversation_id,
      upsert_decision s.decisions conversation_id user_id other_user_id .pass,
      s.connections⟩, ?_, ?_, ?_, rfl⟩
    · unfold reveal_decision_v2
      rw [if_neg hne, if_neg hnb', hslot]
    · exact is_blocked_insert_block_of_key s.blocklist user_id other_user_id
        user_id other_user_id "passed" conversation_id rfl
    · exact is_blocked_insert_block_of_key s.blocklist user_id other_user_id
        other_user_id user_id "passed" conversation_id
        (pair_low_high_comm user_id other_user_id)
  · intro hother
    refine ⟨⟨cycle', s.blocklist,
      upsert_decision s.decisions conversation_id user_id other_user_id .meet,
      s.connections⟩, ?_, rfl, rfl⟩
    unfold reveal_decision_v2
    rw [if_neg hne, if_neg hnb', hslot]
    simp only [get_decision_upsert_ne s.decisions conversation_id user_id
      other_user_id .meet hne', hother]
  · intro hother
    refine ⟨⟨cycle',
      insert_block s.blocklist user_id other_user_id "passed" conversation_id,
      upsert_decision s.decisions conversation_id user_id other_user_id .meet,
      s.connections⟩, ?_, ?_, ?_, rfl⟩
    · unfold reveal_decision_v2
      rw [if_neg hne, if_neg hnb', hslot]
      simp only [get_decision_upsert_ne s.decisions conversation_id user_id
        other_user_id .meet hne', hother]
    · exact is_blocked_insert_block_of_key s.blocklist user_id other_user_id
        user_id other_user_id "passed" conversation_id rfl
    · exact is_blocked_insert_block_of_key s.blocklist user_id other_user_id
        other_user_id user_id "passed" conversation_id
        (pair_low_high_comm user_id other_user_id)
  · intro hother
    refine ⟨⟨cycle', s.blocklist,
      upsert_decision s.decisions conversation_id user_id other_user_id .meet,
      s.connections⟩, ?_, rfl, rfl⟩
    unfold reveal_decision_v2
    rw [if_neg hne, if_neg hnb', hslot]
    simp only [get_decision_upsert_ne s.decisions conversation_id user_id
      other_user_id .meet hne', hother]

/-- Witness for C1: on the empty state, user 1's `meet` for conversation 10
with user 2 returns `waiting` and leaves blocklist and reveal state
untouched. -/
theorem decision_outcome_table_witness :
    ∃ s', reveal_decision_v2 exEmptyState 1 10 2 .meet 0 =
        .ok ({ status := "waiting", slot := 1, day_key := 0 }, s') ∧
      s'.blocklist = exEmptyState.blocklist ∧
      s'.connections = exEmptyState.connections :=
  (decision_outcome_table exEmptyState 1 10 2 0 1
      [{ viewer_id := 1, day_key := 0, slot := 1, target_id := 2,
         conversation_id := some 10, status := none }]
      (by decide) (by decide) (by rfl)).2.1 (by rfl)

/-- Counterexample for C1 as stated: with the counterpart's `meet` already
recorded, the endpoint reports status `meeting`, not `matched`, and marks
nothing reveal-eligible — the `connections` reveal state is untouched and
the conversation remains unrevealed. -/
theorem decision_outcome_table_cex :
    reveal_decision_v2 exMeetState 1 10 2 .meet 0 =
      .ok ({ status := "meeting", slot := 1, day_key := 0 },
        exMeetStateAfter) ∧
    "meeting" ≠ "matched" ∧
    exMeetStateAfter.connections = exMeetState.connections ∧
    local_is_revealed exMeetStateAfter.connections 10 = false :=
  ⟨rfl, by decide, rfl, rfl⟩

/-! ### C9: the messaging-side reveal gate -/

/-- Looking a connection up by id commutes with an id-preserving row map. -/
theorem find_conn_map (l : List ConnRow) (g : ConnRow → ConnRow)
    (hg : ∀ c, (g c).id = c.id) (cid : ConvId) :
    (l.map g).find? (fun c => decide (c.id = cid)) =
      (l.find? (fun c => decide (c.id = cid))).map g := by
  rw [List.find?_map]
  have hp : ((fun c : ConnRow => decide (c.id = cid)) ∘ g) =
      (fun c : ConnRow => decide (c.id = cid)) := by
    funext c
    simp [Function.comp_apply, hg]
  rw [hp]

/-- C9: a conversation flips from unrevealed to revealed only when at least
two distinct message senders are recorded, and an already-set `revealed_at`
timestamp survives any later call to the gate unchanged. -/
theorem reveal_gate_two_senders_one_shot :
    (∀ (conns : List ConnRow) (cid : ConvId)
        (senders participants : List UserId) (now : Time),
      local_is_revealed conns cid = false →
      local_is_revealed
        (maybe_reveal_after_two_senders conns cid senders participants
          now).2 cid = true →
      2 ≤ senders.length) ∧
    (∀ (conns : List ConnRow) (cid : ConvId)
        (senders participants : List UserId) (now : Time) (cid' : ConvId)
        (c : ConnRow) (t : Time),
      conns.find? (fun c0 => decide (c0.id = cid')) = some c →
      c.revealed_at = some t →
      ∃ c', (maybe_reveal_after_two_senders conns cid senders participants
          now).2.find? (fun c0 => decide (c0.id = cid')) = some c' ∧
        c'.revealed_at = some t) := by
  constructor
  · intro conns cid senders participants now h0 h1
    by_cases hs : senders.length < 2
    · exfalso
      unfold maybe_reveal_after_two_senders at h1
      simp [h0, hs] at h1
    · omega
  · intro conns cid senders participants now cid' c t hfind hrev
    unfold maybe_reveal_after_two_senders
    by_cases h0 : local_is_revealed conns cid = true
    · simp only [h0, if_pos]
      exact ⟨c, hfind, hrev⟩
    · by_cases hs : senders.length < 2
      · simp only [h0, if_neg, Bool.false_eq_true, if_pos hs,
          not_false_eq_true]
        exact ⟨c, hfind, hrev⟩
      · cases participants with
        | nil =>
          simp only [h0, Bool.false_eq_true, not_false_eq_true, if_neg hs,
            if_neg]
          exact ⟨c, hfind, hrev⟩
        | cons p0 rest =>
          cases rest with
          | nil =>
            simp only [h0, Bool.false_eq_true, not_false_eq_true,
              if_neg hs, if_neg]
            exact ⟨c, hfind, hrev⟩
          | cons p1 rest2 =>
            simp only [h0, Bool.false_eq_true, not_false_eq_true,
              if_neg hs, if_neg]
            unfold local_mark_revealed
            by_cases hany :
                conns.any (fun c0 => decide (c0.id = cid)) = true
            · rw [if_pos hany]
              rw [find_conn_map conns _
                (fun c0 => by
                  by_cases hc0 : c0.id = cid
                  · rw [if_pos hc0]
                  · rw [if_neg hc0]) cid']
              rw [hfind]
              refine ⟨_, rfl, ?_⟩
              beta_reduce
              by_cases hc : c.id = cid
              · rw [if_pos hc]
                simp [hrev]
              · rw [if_neg hc]
                exact hrev
            · rw [if_neg hany]
              rw [List.find?_append, hfind]
              exact ⟨c, rfl, hrev⟩

/-- Witness for C9: conversation 10 was revealed at time 5; replaying the
gate keeps `revealed_at = some 5`. -/
theorem reveal_gate_two_senders_one_shot_witness :
    ∃ c', (maybe_reveal_after_two_senders
        [{ id := 10, requester_id := 1, target_id := 2, status := "accepted",
           revealed_at := some 5 }] 10 [1, 2] [1, 2] 99).2.find?
        (fun c0 => decide (c0.id = 10)) = some c' ∧
      c'.revealed_at = some 5 :=
  reveal_gate_two_senders_one_shot.2
    [{ id := 10, requester_id := 1, target_id := 2, status := "accepted",
       revealed_at := some 5 }] 10 [1, 2] [1, 2] 99 10
    { id := 10, requester_id := 1, target_id := 2, status := "accepted",
      revealed_at := some 5 } 5 (by rfl) rfl

/-! ### C2 and C3: the nearby cycle filter -/

theorem sortByCycleOrder_sorted (targets : List UserId)
    (l : List (NearbyUser α)) :
    List.Pairwise (fun a b =>
      slotSortKey targets a ≤ slotSortKey targets b)
      (sortByCycleOrder targets l) := by
  haveI : IsTotal (NearbyUser α) (fun a b =>
      slotSortKey targets a ≤ slotSortKey targets b) :=
    ⟨fun a b => Nat.le_total _ _⟩
  haveI : IsTrans (NearbyUser α) (fun a b =>
      slotSortKey targets a ≤ slotSortKey targets b) :=
    ⟨fun _ _ _ hab hbc => Nat.le_trans hab hbc⟩
  exact List.sorted_insertionSort _ l

theorem mem_sortByCycleOrder (targets : List UserId)
    (l : List (NearbyUser α)) (u : NearbyUser α) :
    u ∈ sortByCycleOrder targets l ↔ u ∈ l :=
  List.mem_insertionSort _

theorem sortByDistance_sorted [LinearOrder α] (l : List (NearbyUser α)) :
    List.Pairwise (fun a b : NearbyUser α =>
      a.distance_meters ≤ b.distance_meters) (sortByDistance l) := by
  haveI : IsTotal (NearbyUser α) (fun a b : NearbyUser α =>
      a.distance_meters ≤ b.distance_meters) :=
    ⟨fun a b => le_total _ _⟩
  haveI : IsTrans (NearbyUser α) (fun a b : NearbyUser α =>
      a.distance_meters ≤ b.distance_meters) :=
    ⟨fun _ _ _ hab hbc => le_trans hab hbc⟩
  exact List.sorted_insertionSort _ l

theorem mem_sortByDistance [LinearOrder α] (l : List (NearbyUser α))
    (u : NearbyUser α) : u ∈ sortByDistance l ↔ u ∈ l :=
  List.mem_insertionSort _

/-- C2: when the viewer already has three cycle slots today, the nearby
response contains exactly the slotted targets that are still in radius and
pass the presence predicate, in slot order, and the call writes nothing —
the state comes back unchanged, so no new cycle-slot row is created. -/
theorem nearby_full_cycle [LinearOrder α] (dist : α → α → α → α → α)
    (presence : List (PresenceRow α)) (s : RevealState) (user_id : UserId)
    (lat lng radius_meters : α) (now : Time) (day : Day)
    (h3 : 3 ≤ (today_cycle_targets s.cycle user_id day).length) :
    (presence_nearby dist presence s user_id lat lng radius_meters now
      day).2 = s ∧
    (∀ u, u ∈ (presence_nearby dist presence s user_id lat lng radius_meters
        now day).1 ↔
      u ∈ inRadius dist lat lng radius_meters
        (presenceSelect user_id (now - STATIONARY_THRESHOLD_SECONDS)
          (now - PRESENCE_EXPIRY_MINUTES * 60) presence) ∧
      u.user_id ∈ today_cycle_targets s.cycle user_id day) ∧
    List.Pairwise (fun a b =>
      slotSortKey (today_cycle_targets s.cycle user_id day) a ≤
      slotSortKey (today_cycle_targets s.cycle user_id day) b)
      (presence_nearby dist presence s user_id lat lng radius_meters now
        day).1 := by
  have hred : presence_nearby dist presence s user_id lat lng radius_meters
      now day =
      (sortByCycleOrder (today_cycle_targets s.cycle user_id day)
        ((inRadius dist lat lng radius_meters
          (presenceSelect user_id (now - STATIONARY_THRESHOLD_SECONDS)
            (now - PRESENCE_EXPIRY_MINUTES * 60) presence)).filter
          (fun u => decide
            (u.user_id ∈ today_cycle_targets s.cycle user_id day))), s) := by
    unfold presence_nearby
    rw [if_pos h3]
  refine ⟨?_, ?_, ?_⟩
  · rw [hred]
  · intro u
    rw [hred]
    simp only [mem_sortByCycleOrder, List.mem_filter, decide_eq_true_eq]
  · rw [hred]
    exact sortByCycleOrder_sorted _ _

/-- Witness for C2: viewer 1 has three slotted targets; the call returns
the state unchanged. -/
theorem nearby_full_cycle_witness :
    (presence_nearby exZeroDist [exPresence 3, exPresence 4, exPresence 6]
      exC2State 1 0 0 100 1000 0).2 = exC2State :=
  (nearby_full_cycle exZeroDist [exPresence 3, exPresence 4, exPresence 6]
    exC2State 1 0 0 100 1000 0 (by decide)).1

/-- C3 (amended): with fewer than three slots today, the response is the
in-radius slotted targets in slot order, followed by the nearest fresh
candidates (in radius, not slotted today, pair not blocklisted) up to a
remaining capacity of 3 minus the number of slotted targets *still in
radius* — not 3 minus the number of existing slots — and the call persists
nothing: no CycleSlot row is created (slots are created lazily by the
decision flow, not by `nearby`). -/
theorem nearby_partial_cycle_fill [LinearOrder α] (dist : α → α → α → α → α)
    (presence : List (PresenceRow α)) (s : RevealState) (user_id : UserId)
    (lat lng radius_meters : α) (now : Time) (day : Day)
    (hlt : (today_cycle_targets s.cycle user_id day).length < 3) :
    (presence_nearby dist presence s user_id lat lng radius_meters now
      day).2 = s ∧
    (presence_nearby dist presence s user_id lat lng radius_meters now
      day).1 =
      sortByCycleOrder (today_cycle_targets s.cycle user_id day)
        ((inRadius dist lat lng radius_meters
          (presenceSelect user_id (now - STATIONARY_THRESHOLD_SECONDS)
            (now - PRESENCE_EXPIRY_MINUTES * 60) presence)).filter
          (fun u => decide
            (u.user_id ∈ today_cycle_targets s.cycle user_id day))) ++
      (sortByDistance
        ((inRadius dist lat lng radius_meters
          (presenceSelect user_id (now - STATIONARY_THRESHOLD_SECONDS)
            (now - PRESENCE_EXPIRY_MINUTES * 60) presence)).filter
          (fun u =>
            !decide (u.user_id ∈ today_cycle_targets s.cycle user_id day) &&
            !is_blocked s.blocklist user_id u.user_id))).take
        (3 - ((inRadius dist lat lng radius_meters
          (presenceSelect user_id (now - STATIONARY_THRESHOLD_SECONDS)
            (now - PRESENCE_EXPIRY_MINUTES * 60) presence)).filter
          (fun u => decide
            (u.user_id ∈ today_cycle_targets s.cycle user_id day))).length) ∧
    (∀ u, u ∈ sortByCycleOrder (today_cycle_targets s.cycle user_id day)
        ((inRadius dist lat lng radius_meters
          (presenceSelect user_id (now - STATIONARY_THRESHOLD_SECONDS)
            (now - PRESENCE_EXPIRY_MINUTES * 60) presence)).filter
          (fun u => decide
            (u.user_id ∈ today_cycle_targets s.cycle user_id day))) ↔
      u ∈ inRadius dist lat lng radius_meters
        (presenceSelect user_id (now - STATIONARY_THRESHOLD_SECONDS)
          (now - PRESENCE_EXPIRY_MINUTES * 60) presence) ∧
      u.user_id ∈ today_cycle_targets s.cycle user_id day) ∧
    (∀ u, u ∈ (sortByDistance
        ((inRadius dist lat lng radius_meters
          (presenceSelect user_id (now - STATIONARY_THRESHOLD_SECONDS)
            (now - PRESENCE_EXPIRY_MINUTES * 60) presence)).filter
          (fun u =>
            !decide (u.user_id ∈ today_cycle_targets s.cycle user_id day) &&
            !is_blocked s.blocklist user_id u.user_id))).take
        (3 - ((inRadius dist lat lng radius_meters
          (presenceSelect user_id (now - STATIONARY_THRESHOLD_SECONDS)
            (now - PRESENCE_EXPIRY_MINUTES * 60) presence)).filter
          (fun u => decide
            (u.user_id ∈ today_cycle_targets s.cycle user_id day))).length) →
      u ∈ inRadius dist lat lng radius_meters
        (presenceSelect user_id (now - STATIONARY_THRESHOLD_SECONDS)
          (now - PRESENCE_EXPIRY_MINUTES * 60) presence) ∧
      u.user_id ∉ today_cycle_targets s.cycle user_id day ∧
      is_blocked s.blocklist user_id u.user_id = false) ∧
    List.Pairwise (fun a b =>
      slotSortKey (today_cycle_targets s.cycle user_id day) a ≤
      slotSortKey (today_cycle_targets s.cycle user_id day) b)
      (sortByCycleOrder (today_cycle_targets s.cycle user_id day)
        ((inRadius dist lat lng radius_meters
          (presenceSelect user_id (now - STATIONARY_THRESHOLD_SECONDS)
            (now - PRESENCE_EXPIRY_MINUTES * 60) presence)).filter
          (fun u => decide
            (u.user_id ∈ today_cycle_targets s.cycle user_id day)))) ∧
    List.Pairwise (fun a b : NearbyUser α =>
      a.distance_meters ≤ b.distance_meters)
      (sortByDistance
        ((inRadius dist lat lng radius_meters
          (presenceSelect user_id (now - STATIONARY_THRESHOLD_SECONDS)
            (now - PRESENCE_EXPIRY_MINUTES * 60) presence)).filter
          (fun u =>
            !decide (u.user_id ∈ today_cycle_targets s.cycle user_id day) &&
            !is_blocked s.blocklist user_id u.user_id))) := by
  have hcond : ¬(3 ≤ (today_cycle_targets s.cycle user_id day).length) := by
    omega
  have hred : presence_nearby dist presence s user_id lat lng radius_meters
      now day =
      (sortByCycleOrder (today_cycle_targets s.cycle user_id day)
        ((inRadius dist lat lng radius_meters
          (presenceSelect user_id (now - STATIONARY_THRESHOLD_SECONDS)
            (now - PRESENCE_EXPIRY_MINUTES * 60) presence)).filter
          (fun u => decide
            (u.user_id ∈ today_cycle_targets s.cycle user_id day))) ++
        (sortByDistance
          ((inRadius dist lat lng radius_meters
            (presenceSelect user_id (now - STATIONARY_THRESHOLD_SECONDS)
              (now - PRESENCE_EXPIRY_MINUTES * 60) presence)).filter
            (fun u =>
              !decide
                (u.user_id ∈ today_cycle_targets s.cycle user_id day) &&
              !is_blocked s.blocklist user_id u.user_id))).take
          (3 - ((inRadius dist lat lng radius_meters
            (presenceSelect user_id (now - STATIONARY_THRESHOLD_SECONDS)
              (now - PRESENCE_EXPIRY_MINUTES * 60) presence)).filter
            (fun u => decide
              (u.user_id ∈ today_cycle_targets s.cycle user_id
                day))).length), s) := by
    unfold presence_nearby
    rw [if_neg hcond]
  refine ⟨?_, ?_, ?_, ?_, ?_, ?_⟩
  · rw [hred]
  · rw [hred]
  · intro u
    simp only [mem_sortByCycleOrder, List.mem_filter, decide_eq_true_eq]
  · intro u hu
    have hu' := List.take_subset _ _ hu
    rw [mem_sortByDistance, List.mem_filter] at hu'
    obtain ⟨hin, hflag⟩ := hu'
    simp only [Bool.and_eq_true, Bool.not_eq_true', decide_eq_false_iff_not]
      at hflag
    exact ⟨hin, hflag.1, hflag.2⟩
  · exact sortByCycleOrder_sorted _ _
  · exact sortByDistance_sorted _

/-- Witness for C3's amended theorem: viewer 1 has two slotted targets; the
call leaves the state unchanged. -/
theorem nearby_partial_cycle_fill_witness :
    (presence_nearby exZeroDist [exPresence 3, exPresence 4, exPresence 5]
      exC3State 1 0 0 100 1000 0).2 = exC3State :=
  (nearby_partial_cycle_fill exZeroDist
    [exPresence 3, exPresence 4, exPresence 5] exC3State 1 0 0 100 1000 0
    (by decide)).1

/-- Counterexample for C3 as stated: viewer 1 has two cycle slots today
(targets 8 and 9, both out of radius), so the claim allows only
`3 − 2 = 1` fresh candidate and requires each returned fresh candidate to
be persisted; the code instead returns all three fresh in-radius users
3, 4, 5 — capacity is 3 minus the slotted targets still in radius, not 3
minus the number of slots — and creates no cycle-slot row at all. -/
theorem nearby_partial_cycle_cex :
    (today_cycle_targets exC3State.cycle 1 0).length = 2 ∧
    (presence_nearby exZeroDist [exPresence 3, exPresence 4, exPresence 5]
      exC3State 1 0 0 100 1000 0).1 =
      [{ user_id := 3, lat := 0, lng := 0, distance_meters := 0 },
       { user_id := 4, lat := 0, lng := 0, distance_meters := 0 },
       { user_id := 5, lat := 0, lng := 0, distance_meters := 0 }] ∧
    (presence_nearby exZeroDist [exPresence 3, exPresence 4, exPresence 5]
      exC3State 1 0 0 100 1000 0).2 = exC3State := by
  refine ⟨by decide, by decide, by decide⟩

/-! ### C8: the in-radius selection predicate -/

/-- Membership in the in-radius candidate list, characterized, for an
arbitrary distance function over an arbitrary linearly ordered coordinate
type. -/
theorem mem_inRadius_presenceSelect [LinearOrder α] (dist : α → α → α → α → α)
    (store : List (PresenceRow α)) (viewer : UserId) (lat lng radius : α)
    (ac ec : Time) (u : UserId) :
    (∃ e ∈ inRadius dist lat lng radius (presenceSelect viewer ac ec store),
      e.user_id = u) ↔
    ∃ r ∈ store, r.user_id = u ∧ r.discoverable = true ∧
      r.user_id ≠ viewer ∧ r.is_stationary = true ∧
      (∃ t, r.activated_at = some t ∧ t ≤ ac) ∧
      ec ≤ r.last_seen_at ∧ dist lat lng r.lat r.lng ≤ radius := by
  constructor
  · rintro ⟨e, he, hu⟩
    rw [inRadius, List.mem_filterMap] at he
    obtain ⟨r, hr, hfr⟩ := he
    rw [presenceSelect, List.mem_filter] at hr
    obtain ⟨hrs, hp⟩ := hr
    simp only [Bool.and_eq_true, decide_eq_true_eq] at hp
    obtain ⟨⟨⟨⟨hdisc, hne⟩, hstat⟩, hact⟩, hseen⟩ := hp
    obtain ⟨t, ha, ht⟩ : ∃ t, r.activated_at = some t ∧ t ≤ ac := by
      cases ha : r.activated_at with
      | none => rw [ha] at hact; simp [Option.any] at hact
      | some t =>
        rw [ha] at hact
        simp only [Option.any, decide_eq_true_eq] at hact
        exact ⟨t, rfl, hact⟩
    by_cases hd : dist lat lng r.lat r.lng ≤ radius
    · rw [if_pos hd] at hfr
      have he' := Option.some.inj hfr
      have hru : r.user_id = u := by
        rw [← he'] at hu
        exact hu
      exact ⟨r, hrs, hru, hdisc, hne, hstat, ⟨t, ha, ht⟩, hseen, hd⟩
    · rw [if_neg hd] at hfr
      cases hfr
  · rintro ⟨r, hrs, hu, hdisc, hne, hstat, ⟨t, ha, ht⟩, hseen, hd⟩
    refine ⟨⟨r.user_id, r.lat, r.lng, dist lat lng r.lat r.lng⟩, ?_, hu⟩
    rw [inRadius, List.mem_filterMap]
    refine ⟨r, ?_, ?_⟩
    · rw [presenceSelect, List.mem_filter]
      refine ⟨hrs, ?_⟩
      simp [hdisc, hne, hstat, ha, ht, hseen, Option.any]
    · rw [if_pos hd]

/-- C8: a user appears among the in-radius candidates of a nearby request
(the list `presence_nearby` builds before any cycle filtering) if and only
if their presence row is discoverable, not the viewer's, stationary,
activated at least `STATIONARY_THRESHOLD_SECONDS` before now, seen within
`PRESENCE_EXPIRY_MINUTES`, and within `radius_meters` by the haversine
great-circle distance on a sphere of radius 6,371,000 m (transcribed over
the reals). -/
theorem in_radius_membership_haversine (store : List (PresenceRow ℝ))
    (viewer : UserId) (lat lng radius_meters : ℝ) (now : Time) (u : UserId) :
    (∃ e ∈ inRadius haversine_m lat lng radius_meters
        (presenceSelect viewer (now - STATIONARY_THRESHOLD_SECONDS)
          (now - PRESENCE_EXPIRY_MINUTES * 60) store),
      e.user_id = u) ↔
    ∃ r ∈ store, r.user_id = u ∧ r.discoverable = true ∧
      r.user_id ≠ viewer ∧ r.is_stationary = true ∧
      (∃ t, r.activated_at = some t ∧
        t ≤ now - STATIONARY_THRESHOLD_SECONDS) ∧
      now - PRESENCE_EXPIRY_MINUTES * 60 ≤ r.last_seen_at ∧
      haversine_m lat lng r.lat r.lng ≤ radius_meters :=
  mem_inRadius_presenceSelect haversine_m store viewer lat lng radius_meters
    (now - STATIONARY_THRESHOLD_SECONDS)
    (now - PRESENCE_EXPIRY_MINUTES * 60) u

end Tapit
